import Mathlib

/-!
Verification of the unpoly core against its specification.

The development shallowly embeds four parts of the code base:

* `up.Change.OpenLayer.execute` (CoffeeScript, `src/unnamed/part_000`):
  the protocol that opens a new overlay layer from a server response.
  Stateful steps are modelled by explicit state passing over the layer
  stack, and the side effects of a run are recorded in an effect trace.
* `up.ResponseDoc` (CoffeeScript, `response_doc.coffee`): the normalizer
  that turns a server payload into a selectable element tree.
* `up.RevealMotion` (JavaScript, `reveal_motion.js`): the viewport scroll
  computation.  All pixel geometry is modelled over `ℚ` since DOM
  rectangles carry fractional coordinates.
-/

namespace Unpoly

/-! ## OpenLayer protocol (`up.Change.OpenLayer.execute`) -/

/-- A fragment used as the content of a new layer: either an element
selected from the response document, or an element synthesized by
`document.createElement`. -/
inductive Frag where
  | selected (sel : String)
  | synthesized (tag : String)
deriving DecidableEq, Repr

/-- A layer on the stack.  `closing = true` once its closing sequence has
begun (it is no longer live). -/
structure Layer where
  id : Nat
  closing : Bool
deriving DecidableEq, Repr

/-- The environment of one run of `execute`: the change options together
with the externally determined outcomes of the collaborator calls
(response document lookup, event cancellation, response close signals). -/
structure OpenEnv where
  target : String
  /-- whether `responseDoc.select(target)` finds a matching fragment -/
  responseHasTarget : Bool
  /-- id of `@baseLayer` -/
  baseLayer : Nat
  /-- result of `@baseLayer.isClosed()` -/
  baseLayerClosed : Bool
  /-- whether a listener to the `up:layer:open` event prevents it -/
  openEventPrevented : Bool
  /-- id of the layer built by `@buildLayer()` -/
  newLayerId : Nat
  /-- whether `@handleLayerChangeRequests()` throws `up.error.aborted`
  (accept/dismiss headers, emitted events or a close-matching location) -/
  closeSignalFromResponse : Bool
  /-- whether a listener to `up:layer:opened` closes the new layer, making
  the final `@abortWhenLayerClosed()` throw -/
  openedListenerClosesLayer : Bool
deriving DecidableEq, Repr

/-- The observable side effects of a run of `execute`, in order. -/
inductive Effect where
  | peel
  | push
  | createElements
  | setupHandlers
  | history
  | setSource
  | finalize
  | compile
  | scroll
  | openedEvent
deriving DecidableEq, Repr

/-- Failure taxonomy of the protocol. -/
inductive OpenError where
  | notApplicable
  | aborted (reason : String)
deriving DecidableEq, Repr

/-- `up.RenderResult` as produced on success: the new layer and the
attached content fragments. -/
structure RenderResult where
  layer : Nat
  fragments : List Frag
deriving DecidableEq, Repr

/-- The content computed at the start of `execute`:
`if @target == ':none' then document.createElement('up-none')
else responseDoc.select(@target)`. -/
def selectContent (env : OpenEnv) : Option Frag :=
  if env.target = ":none" then some (.synthesized "up-none")
  else if env.responseHasTarget then some (.selected env.target) else none

/-- `@baseLayer.peel()`: begin closing all layers that live above the base
layer on the stack (the stack is ordered bottom first).  The closing is
enqueued, not awaited, so the layers stay in the stack but are marked as
closing. -/
def peelStack (base : Nat) : List Layer → List Layer
  | [] => []
  | l :: rest =>
      if l.id = base then l :: rest.map (fun x => { x with closing := true })
      else l :: peelStack base rest

/-- Shallow embedding of `up.Change.OpenLayer.execute`.  Returns the
protocol outcome, the resulting layer stack and the trace of side
effects that were performed, in order. -/
def execute (env : OpenEnv) (stack : List Layer) :
    Except OpenError RenderResult × List Layer × List Effect :=
  match selectContent env, env.baseLayerClosed with
  | none, _ => (.error .notApplicable, stack, [])
  | some _, true => (.error .notApplicable, stack, [])
  | some content, false =>
      if env.openEventPrevented then
        (.error (.aborted "Open event was prevented"), stack, [])
      else
        -- `@baseLayer.peel()` followed by `up.layer.stack.push(@layer)`
        let stack1 := peelStack env.baseLayer stack
        let stack2 := stack1 ++ [⟨env.newLayerId, false⟩]
        let trace1 : List Effect :=
          [.peel, .push, .createElements, .setupHandlers, .history,
           .setSource, .finalize, .compile]
        if env.closeSignalFromResponse then
          (.error (.aborted "Layer was closed"), stack2, trace1)
        else
          let trace2 := trace1 ++ [.scroll, .openedEvent]
          if env.openedListenerClosesLayer then
            (.error (.aborted "Layer was closed"), stack2, trace2)
          else
            (.ok ⟨env.newLayerId, [content]⟩, stack2, trace2)

/-! ## ResponseDoc (`up.ResponseDoc`) -/

/-- A DOM node: an element with a tag and children, or a text node. -/
inductive DomNode where
  | elem (tag : String) (children : List DomNode)
  | text (s : String)
deriving Repr

/-- A token of an HTML payload string.  Modelled from the spec: a string
payload is markup in which `noscript` and `script` tags can be recognized
textually; everything else is ordinary markup.  `wrappedNoscript` is a
`noscript` tag that has been wrapped into an inert neutral container. -/
inductive Tok where
  | lit (s : String)
  | noscript (body : String)
  | wrappedNoscript (body : String)
  | script (body : String)
deriving DecidableEq, Repr

/-- A payload handed to the ResponseDoc constructor: either an HTML markup
string (tokenized) or an already-parsed node. -/
inductive Payload where
  | str (toks : List Tok)
  | node (n : DomNode)

/-- The options of the ResponseDoc constructor. -/
structure DocOptions where
  document : Option Payload
  fragment : Option Payload
  content : Option Payload
  target : Option String

/-- Modelled from the spec: `up.HTMLWrapper('noscript').wrap` wraps every
`noscript` tag into an inert neutral container, preserving its text
content verbatim. -/
def wrapNoscripts (h : List Tok) : List Tok :=
  h.map fun t => match t with
    | .noscript b => .wrappedNoscript b
    | t => t

/-- Modelled from the spec: `up.HTMLWrapper('script').strip` removes every
`script` tag from the markup. -/
def stripScripts (h : List Tok) : List Tok :=
  h.filter fun t => match t with
    | .script _ => false
    | _ => true

/-- `@wrapHTML(html)`: wrap `noscript` tags, then strip `script` tags. -/
def wrapHTML (h : List Tok) : List Tok :=
  stripScripts (wrapNoscripts h)

/-- How a single markup token parses into a DOM node.  A wrapped
`noscript` parses into the neutral wrapper element containing the intact
`noscript`. -/
def tokNode : Tok → DomNode
  | .lit s => .text s
  | .noscript b => .elem "noscript" [.text b]
  | .wrappedNoscript b => .elem "up-wrapped" [.elem "noscript" [.text b]]
  | .script b => .elem "script" [.text b]

/-- Modelled from the spec: `e.createDocumentFromHTML` parses any markup
string into a full document tree (a `DOMParser` always yields a
document). -/
def createDocumentFromHTML (h : List Tok) : Option DomNode :=
  some (.elem "html" (h.map tokNode))

/-- Modelled from the spec: `e.createFromHTML` parses non-empty markup
into a root element holding the parsed nodes; empty markup yields no
node. -/
def createFromHTML (h : List Tok) : Option DomNode :=
  if h.isEmpty then none else some (.elem "up-fragment" (h.map tokNode))

/-- `@parse(value, parseFn)`: a string payload is passed through
`@wrapHTML` and the parse function; any other given value is returned
unchanged. -/
def parsePayload (value : Option Payload)
    (parseFn : List Tok → Option DomNode) : Option DomNode :=
  match value with
  | none => none
  | some (.str h) => parseFn (wrapHTML h)
  | some (.node n) => some n

/-- `@parseDocument(options)`. -/
def parseDocument (o : DocOptions) : Option DomNode :=
  parsePayload o.document createDocumentFromHTML

/-- `@parseFragment(options)`. -/
def parseFragment (o : DocOptions) : Option DomNode :=
  parsePayload o.fragment createFromHTML

/-- `up.fail` in the ResponseDoc constructor: a usage error naming the
missing option. -/
inductive UsageError where
  | usage (missingOption : String)
deriving DecidableEq, Repr

/-- `@parseContent(options)`: conjure an element matching the target
selector (`e.createFromSelector`), then set its inner HTML from a string
content (through `@wrapHTML`) or append a node content unchanged.
Without a target this fails with a usage error naming "target". -/
def parseContent (o : DocOptions) : Except UsageError DomNode :=
  let content := o.content.getD (.str [])
  match o.target with
  | none => .error (.usage "target")
  | some t =>
      match content with
      | .str h => .ok (.elem t ((wrapHTML h).map tokNode))
      | .node n => .ok (.elem t [n])

/-- The ResponseDoc constructor:
`@root = @parseDocument(options) || @parseFragment(options) || @parseContent(options)`. -/
def mkResponseDoc (o : DocOptions) : Except UsageError DomNode :=
  match parseDocument o with
  | some r => .ok r
  | none =>
      match parseFragment o with
      | some r => .ok r
      | none => parseContent o

mutual
/-- First element with the given tag in the subtree rooted at the node
(document order, root included). -/
def findTag (tag : String) : DomNode → Option DomNode
  | .text _ => none
  | .elem t cs => if t = tag then some (.elem t cs) else findTagList tag cs
def findTagList (tag : String) : List DomNode → Option DomNode
  | [] => none
  | c :: cs =>
      match findTag tag c with
      | some r => some r
      | none => findTagList tag cs
end

mutual
/-- The concatenated text content of a node. -/
def textContent : DomNode → String
  | .text s => s
  | .elem _ cs => textContentList cs
def textContentList : List DomNode → String
  | [] => ""
  | c :: cs => textContent c ++ textContentList cs
end

/-- `@root.querySelector("head title")?.textContent`: the text of the
first `title` element inside a `head` element, if any. -/
def queryHeadTitle (root : DomNode) : Option String :=
  match findTag "head" root with
  | none => none
  | some h =>
      match findTag "title" h with
      | none => none
      | some t => some (textContent t)

/-- The mutable state of a ResponseDoc relevant to `getTitle`: the parsed
root, the cached `@title` value and the `@titleParsed` flag. -/
structure ResponseDocState where
  root : DomNode
  title : Option String
  titleParsed : Bool

/-- A freshly constructed ResponseDoc: no title computed yet. -/
def ResponseDocState.fresh (root : DomNode) : ResponseDocState :=
  ⟨root, none, false⟩

/-- `@getTitle()`.  Returns the title (possibly absent), the updated
state, and the number of root queries performed by this call. -/
def getTitle (d : ResponseDocState) : Option String × ResponseDocState × Nat :=
  if d.titleParsed then (d.title, d, 0)
  else
    let t := queryHeadTitle d.root
    (t, { d with title := t, titleParsed := true }, 1)

mutual
/-- Whether a `script` element occurs anywhere in the tree. -/
def hasScript : DomNode → Bool
  | .text _ => false
  | .elem t cs => t = "script" || hasScriptList cs
def hasScriptList : List DomNode → Bool
  | [] => false
  | c :: cs => hasScript c || hasScriptList cs
end

/-! ## RevealMotion (`up.RevealMotion`) -/

/-- `up.Rect`: an axis-aligned rectangle with derived bottom/right. -/
structure Rect where
  left : ℚ
  top : ℚ
  width : ℚ
  height : ℚ
deriving DecidableEq, Repr

/-- `Rect#bottom`. -/
def Rect.bottom (r : Rect) : ℚ := r.top + r.height

/-- `Rect#right`. -/
def Rect.right (r : Rect) : ℚ := r.left + r.width

/-- An element matching one of the configured obstruction selectors,
together with the result of `e.isVisible` for it. -/
structure Obstruction where
  rect : Rect
  visible : Bool
deriving DecidableEq, Repr

/-- One invocation of `RevealMotion#start`: the element and viewport
geometry together with the resolved options
(`snap`/`padding`/`top`/`max`) and the obstruction elements matching the
`fixedTopSelectors` / `fixedBottomSelectors` in the viewport layer. -/
structure RevealConfig where
  /-- `up.Rect.fromElement(this._element)` -/
  elementRect : Rect
  /-- `up.viewport.isRoot(this._viewport)` -/
  viewportIsRoot : Bool
  /-- `up.Rect.fromElement(this._viewport)` when not the root viewport -/
  viewportBoundingRect : Rect
  /-- `up.viewport.rootWidth()` -/
  rootWidth : ℚ
  /-- `up.viewport.rootHeight()` -/
  rootHeight : ℚ
  /-- `this._viewport.scrollTop` -/
  scrollTop : ℚ
  /-- `this._snap`; `some s` when `u.isNumber(this._snap)` -/
  snap : Option ℚ
  /-- `this._padding` -/
  padding : ℚ
  /-- `this._top` (align-top flag) -/
  top : Bool
  /-- `u.evalOption(this._max, this._element)` when `this._max` is set -/
  max : Option ℚ
  /-- elements matching `fixedTopSelectors`, in document order -/
  topObstructions : List Obstruction
  /-- elements matching `fixedBottomSelectors`, in document order -/
  bottomObstructions : List Obstruction
deriving DecidableEq, Repr

/-- `this._getViewportRect()`: the usable screen rectangle for the root
viewport, the viewport element's bounding rectangle otherwise. -/
def getViewportRect (c : RevealConfig) : Rect :=
  if c.viewportIsRoot then ⟨0, 0, c.rootWidth, c.rootHeight⟩
  else c.viewportBoundingRect

/-- The `this._max` clamp in `start`:
`elementRect.height = Math.min(elementRect.height, maxPixels)`. -/
def capHeight (max : Option ℚ) (r : Rect) : Rect :=
  match max with
  | none => r
  | some m => { r with height := min r.height m }

/-- `this._addPadding(elementRect)`. -/
def addPadding (padding : ℚ) (r : Rect) : Rect :=
  { r with top := r.top - padding, height := r.height + 2 * padding }

/-- `this._selectObstructions(selectors)`: keep the visible obstruction
elements and take their rectangles. -/
def selectObstructions (l : List Obstruction) : List Rect :=
  (l.filter (·.visible)).map (·.rect)

/-- One iteration of the fixed-top loop of `_substractObstructions`,
with `diff = obstructionRect.bottom - viewportRect.top`. -/
def subtractTopObstruction (v : Rect) (o : Rect) : Rect :=
  if o.bottom - v.top > 0 then
    { v with top := v.top + (o.bottom - v.top),
             height := v.height - (o.bottom - v.top) }
  else v

/-- One iteration of the fixed-bottom loop of `_substractObstructions`,
with `diff = viewportRect.bottom - obstructionRect.top`. -/
def subtractBottomObstruction (v : Rect) (o : Rect) : Rect :=
  if v.bottom - o.top > 0 then { v with height := v.height - (v.bottom - o.top) }
  else v

/-- `this._substractObstructions(viewportRect)`: fold the fixed-top loop,
then the fixed-bottom loop over the mutated rectangle. -/
def subtractObstructions (tops bottoms : List Obstruction) (v : Rect) : Rect :=
  (selectObstructions bottoms).foldl subtractBottomObstruction
    ((selectObstructions tops).foldl subtractTopObstruction v)

/-- The element rectangle used by `start`: the `max` clamp followed by
`_addPadding`. -/
def elementRectOf (c : RevealConfig) : Rect :=
  addPadding c.padding (capHeight c.max c.elementRect)

/-- The viewport rectangle used by `start`, after obstruction
subtraction. -/
def viewportRectOf (c : RevealConfig) : Rect :=
  subtractObstructions c.topObstructions c.bottomObstructions
    (getViewportRect c)

/-- The `newScrollTop` computed by the four-branch decision in `start`,
before snapping. -/
def rawScrollTop (alignTop : Bool) (orig : ℚ) (e v : Rect) : ℚ :=
  if alignTop = true ∨ e.height > v.height then orig + (e.top - v.top)
  else if e.top < v.top then orig - (v.top - e.top)
  else if e.bottom > v.bottom then orig + (e.bottom - v.bottom)
  else orig

/-- The snap step of `start`: clamp to zero when the snap threshold is a
number, the computed offset is below it and the element top sits in the
upper half of the viewport. -/
def snapScrollTop (snap : Option ℚ) (e v : Rect) (newScrollTop : ℚ) : ℚ :=
  match snap with
  | some s =>
      if newScrollTop < s ∧ e.top < 0.5 * v.height then 0 else newScrollTop
  | none => newScrollTop

/-- The raw offset of a configuration. -/
def rawOf (c : RevealConfig) : ℚ :=
  rawScrollTop c.top c.scrollTop (elementRectOf c) (viewportRectOf c)

/-- The final computed offset of a configuration (after snapping). -/
def finalScrollTop (c : RevealConfig) : ℚ :=
  snapScrollTop c.snap (elementRectOf c) (viewportRectOf c) (rawOf c)

/-- `up.fail('Viewport has no visible area')`. -/
inductive RevealError where
  | geometry
deriving DecidableEq, Repr

/-- Shallow embedding of `RevealMotion#start`.  Returns
`.ok (some newScrollTop)` when `this._viewport.scrollTo` is called with
that offset, `.ok none` when no scroll call is performed, and
`.error .geometry` when the residual viewport height is negative. -/
def start (c : RevealConfig) : Except RevealError (Option ℚ) :=
  if (viewportRectOf c).height < 0 then .error .geometry
  else if finalScrollTop c ≠ c.scrollTop then .ok (some (finalScrollTop c))
  else .ok none

/-! ## Theorems about the OpenLayer protocol -/

/-- C1: OpenLayer pre-open cancellation is atomic with respect to the
stack: in every run of the open protocol that emits the pre-open
`up:layer:open` event (a fragment was found and the base layer is not
closed) and in which a listener cancels it, `execute` fails as Aborted,
the layer stack is unchanged (in particular its length is unchanged),
and neither peel nor push has occurred. -/
theorem C1_preopen_cancel_atomic (env : OpenEnv) (stack : List Layer)
    (hsel : selectContent env ≠ none)
    (hclosed : env.baseLayerClosed = false)
    (hprev : env.openEventPrevented = true) :
    (execute env stack).1 = .error (.aborted "Open event was prevented")
    ∧ (execute env stack).2.1 = stack
    ∧ (execute env stack).2.1.length = stack.length
    ∧ Effect.peel ∉ (execute env stack).2.2
    ∧ Effect.push ∉ (execute env stack).2.2 := by
  cases h : selectContent env with
  | none => exact absurd h hsel
  | some c => simp [execute, h, hclosed, hprev]

/-- Witness for C1: a concrete cancelled run on a one-layer stack. -/
theorem C1_preopen_cancel_atomic_witness :
    (execute ⟨":none", false, 0, false, true, 1, false, false⟩
        [⟨0, false⟩]).1 = .error (.aborted "Open event was prevented")
    ∧ (execute ⟨":none", false, 0, false, true, 1, false, false⟩
        [⟨0, false⟩]).2.1 = [⟨0, false⟩]
    ∧ (execute ⟨":none", false, 0, false, true, 1, false, false⟩
        [⟨0, false⟩]).2.1.length = [(⟨0, false⟩ : Layer)].length
    ∧ Effect.peel ∉ (execute ⟨":none", false, 0, false, true, 1, false, false⟩
        [⟨0, false⟩]).2.2
    ∧ Effect.push ∉ (execute ⟨":none", false, 0, false, true, 1, false, false⟩
        [⟨0, false⟩]).2.2 :=
  C1_preopen_cancel_atomic _ _ (by simp [selectContent]) rfl rfl

/-- C2: peel-before-push ordering: in every run of the open protocol
whose effect trace contains a push of the new layer, the peel of the
base layer occurs strictly earlier in the trace, so the closing of any
existing live child has begun before the push is observed. -/
theorem C2_peel_before_push (env : OpenEnv) (stack : List Layer)
    (hpush : Effect.push ∈ (execute env stack).2.2) :
    (execute env stack).2.2.indexOf Effect.peel
      < (execute env stack).2.2.indexOf Effect.push := by
  cases hsel : selectContent env with
  | none => simp [execute, hsel] at hpush
  | some c =>
    cases hclosed : env.baseLayerClosed with
    | true => simp [execute, hsel, hclosed] at hpush
    | false =>
      cases hprev : env.openEventPrevented with
      | true => simp [execute, hsel, hclosed, hprev] at hpush
      | false =>
        cases hcs : env.closeSignalFromResponse with
        | true => simp [execute, hsel, hclosed, hprev, hcs]
        | false =>
          cases hol : env.openedListenerClosesLayer with
          | true => simp [execute, hsel, hclosed, hprev, hcs, hol]
          | false => simp [execute, hsel, hclosed, hprev, hcs, hol]

/-- Witness for C2: a concrete successful run pushes after peeling. -/
theorem C2_peel_before_push_witness :
    Effect.push ∈ (execute ⟨":none", false, 0, false, false, 1, false, false⟩
        [⟨0, false⟩]).2.2
    ∧ (execute ⟨":none", false, 0, false, false, 1, false, false⟩
        [⟨0, false⟩]).2.2.indexOf Effect.peel
      < (execute ⟨":none", false, 0, false, false, 1, false, false⟩
        [⟨0, false⟩]).2.2.indexOf Effect.push :=
  ⟨by simp [execute, selectContent], C2_peel_before_push _ _ (by simp [execute, selectContent])⟩

/-- C9: a run of the open protocol whose target is the literal ':none'
does not select from the response document but synthesizes a fresh
'up-none' element as the content; such a run fails NotApplicable exactly
when the base layer has closed, never because of a missing fragment. -/
theorem C9_none_target_synthesizes (env : OpenEnv) (stack : List Layer)
    (htgt : env.target = ":none") :
    selectContent env = some (.synthesized "up-none")
    ∧ ((execute env stack).1 = .error .notApplicable
        ↔ env.baseLayerClosed = true) := by
  have hsel : selectContent env = some (.synthesized "up-none") := by
    simp [selectContent, htgt]
  refine ⟨hsel, ?_⟩
  cases hclosed : env.baseLayerClosed with
  | true => simp [execute, hsel, hclosed]
  | false =>
    cases hprev : env.openEventPrevented with
    | true => simp [execute, hsel, hclosed, hprev]
    | false =>
      cases hcs : env.closeSignalFromResponse with
      | true => simp [execute, hsel, hclosed, hprev, hcs]
      | false =>
        cases hol : env.openedListenerClosesLayer with
        | true => simp [execute, hsel, hclosed, hprev, hcs, hol]
        | false => simp [execute, hsel, hclosed, hprev, hcs, hol]

/-- Witness for C9: a concrete ':none' run with an open base layer whose
response matches nothing still succeeds past fragment selection. -/
theorem C9_none_target_synthesizes_witness :
    selectContent ⟨":none", false, 0, false, false, 1, false, false⟩
        = some (.synthesized "up-none")
    ∧ ((execute ⟨":none", false, 0, false, false, 1, false, false⟩
          [⟨0, false⟩]).1 = .error .notApplicable
        ↔ OpenEnv.baseLayerClosed ⟨":none", false, 0, false, false, 1, false, false⟩
            = true) :=
  C9_none_target_synthesizes _ _ rfl

/-! ## Theorems about ResponseDoc -/

/-- C7: ResponseDoc construction contract: the root comes from exactly
one input path in the priority order document, then fragment, then
content-with-target; construction raises a usage error naming "target"
iff neither the document nor the fragment path yields a root and no
target selector was given; any error it raises is that usage error; and
with no content but a target it synthesizes an empty element matching
the target. -/
theorem C7_responsedoc_construction (o : DocOptions) :
    (mkResponseDoc o = .error (.usage "target")
      ↔ parseDocument o = none ∧ parseFragment o = none ∧ o.target = none)
    ∧ (∀ e, mkResponseDoc o = .error e → e = .usage "target")
    ∧ (∀ r, parseDocument o = some r → mkResponseDoc o = .ok r)
    ∧ (parseDocument o = none → ∀ r, parseFragment o = some r →
        mkResponseDoc o = .ok r)
    ∧ (parseDocument o = none → parseFragment o = none → o.content = none →
        ∀ t, o.target = some t → mkResponseDoc o = .ok (.elem t [])) := by
  cases hd : parseDocument o with
  | some r =>
    have hm : mkResponseDoc o = .ok r := by simp [mkResponseDoc, hd]
    refine ⟨by simp [hm], ?_, ?_, by simp, by simp⟩
    · intro e he; rw [hm] at he; cases he
    · intro r2 h2
      injection h2 with h2
      rw [← h2]; exact hm
  | none =>
    cases hf : parseFragment o with
    | some r =>
      have hm : mkResponseDoc o = .ok r := by simp [mkResponseDoc, hd, hf]
      refine ⟨by simp [hm], ?_, by simp, ?_, by simp⟩
      · intro e he; rw [hm] at he; cases he
      · intro _ r2 h2
        injection h2 with h2
        rw [← h2]; exact hm
    | none =>
      have hm : mkResponseDoc o = parseContent o := by
        simp [mkResponseDoc, hd, hf]
      cases ht : o.target with
      | none =>
        have hpc : parseContent o = .error (.usage "target") := by
          simp [parseContent, ht]
        refine ⟨by simp [hm, hpc], ?_, by simp, by simp, by simp⟩
        · intro e he
          rw [hm, hpc] at he
          injection he with h
          exact h.symm
      | some t =>
        have hok : ∃ r, parseContent o = .ok r := by
          cases hc : o.content with
          | none =>
            exact ⟨.elem t ((wrapHTML []).map tokNode),
              by simp [parseContent, ht, hc]⟩
          | some p =>
            cases p with
            | str h2 =>
              exact ⟨.elem t ((wrapHTML h2).map tokNode),
                by simp [parseContent, ht, hc]⟩
            | node n2 =>
              exact ⟨.elem t [n2], by simp [parseContent, ht, hc]⟩
        obtain ⟨r, hr⟩ := hok
        refine ⟨by simp [hm, hr], ?_, by simp, by simp, ?_⟩
        · intro e he; rw [hm, hr] at he; cases he
        · intro _ _ hc t2 ht2
          injection ht2 with h3
          rw [hm, ← h3]
          simp [parseContent, ht, hc, wrapHTML, stripScripts, wrapNoscripts]

/-- Witness for C7: with no inputs at all construction fails with the
usage error naming "target"; with only a target it synthesizes an empty
element matching it. -/
theorem C7_responsedoc_construction_witness :
    mkResponseDoc ⟨none, none, none, none⟩ = .error (.usage "target")
    ∧ mkResponseDoc ⟨none, none, none, some "div"⟩ = .ok (.elem "div" []) :=
  ⟨(C7_responsedoc_construction ⟨none, none, none, none⟩).1.mpr
      ⟨rfl, rfl, rfl⟩,
    (C7_responsedoc_construction ⟨none, none, none, some "div"⟩).2.2.2.2
      rfl rfl rfl "div" rfl⟩

/-- C8: getTitle memoization: on a freshly constructed ResponseDoc the
first getTitle call queries the parsed root exactly once and caches the
result with the parsed flag set; a subsequent call returns the same
value (even an absent one) with zero root queries and leaves the state
unchanged, so the root is never queried again. -/
theorem C8_getTitle_memoized (root : DomNode) :
    (getTitle (ResponseDocState.fresh root)).1 = queryHeadTitle root
    ∧ (getTitle (ResponseDocState.fresh root)).2.2 = 1
    ∧ (getTitle (ResponseDocState.fresh root)).2.1.titleParsed = true
    ∧ (getTitle ((getTitle (ResponseDocState.fresh root)).2.1)).1
        = (getTitle (ResponseDocState.fresh root)).1
    ∧ (getTitle ((getTitle (ResponseDocState.fresh root)).2.1)).2.2 = 0
    ∧ (getTitle ((getTitle (ResponseDocState.fresh root)).2.1)).2.1
        = (getTitle (ResponseDocState.fresh root)).2.1 := by
  simp [getTitle, ResponseDocState.fresh]

/-- Whether a node is itself a `noscript` element. -/
def isNoscriptElem : DomNode → Bool
  | .elem t _ => t = "noscript"
  | .text _ => false

/-- How `@wrapHTML` acts on one leading token. -/
theorem wrapHTML_cons (t : Tok) (ts : List Tok) :
    wrapHTML (t :: ts) =
      (match t with
        | .script _ => wrapHTML ts
        | .noscript b => .wrappedNoscript b :: wrapHTML ts
        | t => t :: wrapHTML ts) := by
  cases t <;> simp [wrapHTML, wrapNoscripts, stripScripts]

/-- After `@wrapHTML`, the parsed nodes of a string payload contain no
`script` element anywhere. -/
theorem wrapHTML_no_script_nodes (toks : List Tok) :
    hasScriptList ((wrapHTML toks).map tokNode) = false := by
  induction toks with
  | nil => rfl
  | cons t ts ih =>
    rw [wrapHTML_cons]
    cases t <;> simp [tokNode, hasScript, hasScriptList, ih]

/-- After `@wrapHTML`, no parsed node of a string payload is a bare
`noscript` element: every one got wrapped into the neutral container. -/
theorem wrapHTML_no_bare_noscript (toks : List Tok) :
    ((wrapHTML toks).map tokNode).all (fun d => !(isNoscriptElem d)) = true := by
  induction toks with
  | nil => rfl
  | cons t ts ih =>
    rw [wrapHTML_cons]
    cases t <;> simp_all [tokNode, isNoscriptElem]

/-- C10: string-only payload sanitization: the noscript-wrapping and
script-stripping transformations are applied exactly to string payloads.
A node payload becomes (fragment path) or is appended as (content path)
the root unchanged — in particular scripts inside it survive and
noscripts inside it stay bare — while a string payload is parsed through
`@wrapHTML`, after which the parsed tree holds no script element and no
bare noscript element. -/
theorem C10_string_only_sanitization (n : DomNode) (toks : List Tok)
    (t : String) :
    mkResponseDoc ⟨none, some (.node n), none, none⟩ = .ok n
    ∧ mkResponseDoc ⟨none, none, some (.node n), some t⟩ = .ok (.elem t [n])
    ∧ mkResponseDoc ⟨none, none, some (.str toks), some t⟩
        = .ok (.elem t ((wrapHTML toks).map tokNode))
    ∧ hasScriptList ((wrapHTML toks).map tokNode) = false
    ∧ ((wrapHTML toks).map tokNode).all (fun d => !(isNoscriptElem d)) = true :=
  ⟨rfl, rfl, rfl, wrapHTML_no_script_nodes toks, wrapHTML_no_bare_noscript toks⟩

/-! ## Theorems about RevealMotion -/

theorem subtractTopObstruction_bottom (v o : Rect) :
    (subtractTopObstruction v o).bottom = v.bottom := by
  unfold subtractTopObstruction Rect.bottom
  split
  · simp only
    ring
  · rfl

theorem subtractTopObstruction_top (v o : Rect) :
    v.top ≤ (subtractTopObstruction v o).top := by
  unfold subtractTopObstruction
  split
  · simp only [Rect.bottom] at *; linarith
  · exact le_refl _

theorem foldl_subtractTop_bottom (l : List Rect) (v : Rect) :
    (l.foldl subtractTopObstruction v).bottom = v.bottom := by
  induction l generalizing v with
  | nil => rfl
  | cons o l ih => rw [List.foldl_cons, ih, subtractTopObstruction_bottom]

theorem foldl_subtractTop_top (l : List Rect) (v : Rect) :
    v.top ≤ (l.foldl subtractTopObstruction v).top := by
  induction l generalizing v with
  | nil => exact le_refl _
  | cons o l ih =>
    rw [List.foldl_cons]
    exact le_trans (subtractTopObstruction_top v o) (ih _)

theorem subtractBottomObstruction_top (v o : Rect) :
    (subtractBottomObstruction v o).top = v.top := by
  unfold subtractBottomObstruction
  split <;> rfl

theorem foldl_subtractBottom_top (l : List Rect) (v : Rect) :
    (l.foldl subtractBottomObstruction v).top = v.top := by
  induction l generalizing v with
  | nil => rfl
  | cons o l ih => rw [List.foldl_cons, ih, subtractBottomObstruction_top]

theorem subtractBottomObstruction_bottom (v o : Rect) :
    (subtractBottomObstruction v o).bottom = min v.bottom o.top := by
  unfold subtractBottomObstruction
  split
  · rename_i h
    simp only [Rect.bottom] at *
    rw [min_eq_right (by linarith)]
    ring
  · rename_i h
    simp only [Rect.bottom] at *
    rw [min_eq_left (by linarith)]

theorem foldl_subtractBottom_bottom_congr (l : List Rect) (v w : Rect)
    (h : v.bottom = w.bottom) :
    (l.foldl subtractBottomObstruction v).bottom
      = (l.foldl subtractBottomObstruction w).bottom := by
  induction l generalizing v w with
  | nil => exact h
  | cons o l ih =>
    rw [List.foldl_cons, List.foldl_cons]
    exact ih _ _ (by rw [subtractBottomObstruction_bottom,
      subtractBottomObstruction_bottom, h])

/-- The four-branch scroll decision is antitone in the viewport top when
the viewport bottom is held fixed: pushing the viewport top down never
increases the computed raw offset. -/
theorem rawScrollTop_antitone (alignTop : Bool) (orig : ℚ) (e vA vB : Rect)
    (htop : vA.top ≤ vB.top) (hbot : vA.bottom = vB.bottom) :
    rawScrollTop alignTop orig e vB ≤ rawScrollTop alignTop orig e vA := by
  simp only [Rect.bottom] at hbot
  unfold rawScrollTop
  cases alignTop with
  | true => simp only [true_or, if_pos]; linarith
  | false =>
    simp only [Bool.false_eq_true, false_or]
    split_ifs <;> simp only [Rect.bottom] at * <;> linarith

theorem selectObstructions_append (l : List Obstruction) (o : Obstruction) :
    selectObstructions (l ++ [o])
      = selectObstructions l ++ (if o.visible then [o.rect] else []) := by
  simp only [selectObstructions, List.filter_append, List.map_append]
  cases h : o.visible <;> simp [h]

/-- C3: RevealMotion hard-fails on negative residual viewport height:
`start` raises the geometry failure exactly when the viewport height
after obstruction subtraction is strictly negative — so the height is
never clamped to zero — and a residual height of exactly zero does not
fail. -/
theorem C3_negative_height_fails (c : RevealConfig) :
    (start c = .error .geometry ↔ (viewportRectOf c).height < 0)
    ∧ ((viewportRectOf c).height = 0 → ∃ r, start c = .ok r) := by
  by_cases h : (viewportRectOf c).height < 0
  · refine ⟨by simp [start, h], ?_⟩
    intro h0
    rw [h0] at h
    exact absurd h (by norm_num)
  · refine ⟨?_, ?_⟩
    · constructor
      · intro hs
        exfalso
        revert hs
        simp only [start, h, if_false]
        split <;> simp
      · intro hlt; exact absurd hlt h
    · intro _
      by_cases hf : finalScrollTop c ≠ c.scrollTop
      · exact ⟨some (finalScrollTop c), by simp [start, h, hf]⟩
      · exact ⟨none, by simp [start, h, hf]⟩

/-- Witness for C3: with an 800px root viewport, a visible fixed-top
obstruction reaching down to 850px leaves height -50 and start fails;
one reaching exactly 800px leaves height 0 and start does not fail. -/
theorem C3_negative_height_fails_witness :
    start ⟨⟨0, 900, 100, 50⟩, true, ⟨0, 0, 0, 0⟩, 600, 800, 0, none, 0,
        false, none, [⟨⟨0, 0, 600, 850⟩, true⟩], []⟩ = .error .geometry
    ∧ ∃ r, start ⟨⟨0, 900, 100, 50⟩, true, ⟨0, 0, 0, 0⟩, 600, 800, 0, none, 0,
        false, none, [⟨⟨0, 0, 600, 800⟩, true⟩], []⟩ = .ok r :=
  ⟨(C3_negative_height_fails _).1.mpr (by
      norm_num [viewportRectOf, subtractObstructions, selectObstructions,
        subtractTopObstruction, subtractBottomObstruction, getViewportRect,
        Rect.bottom]),
    (C3_negative_height_fails _).2 (by
      norm_num [viewportRectOf, subtractObstructions, selectObstructions,
        subtractTopObstruction, subtractBottomObstruction, getViewportRect,
        Rect.bottom])⟩

/-- C4: the snap rule: with a numeric snap threshold, whenever the
computed raw offset is strictly below the threshold and the padded
element top lies in the upper half of the reduced viewport, the final
offset is clamped to 0; in every other case the final offset equals the
raw offset unchanged. -/
theorem C4_snap_rule (c : RevealConfig) (s : ℚ) (hsnap : c.snap = some s) :
    (rawOf c < s →
      (elementRectOf c).top < 0.5 * (viewportRectOf c).height →
      finalScrollTop c = 0)
    ∧ (¬(rawOf c < s
          ∧ (elementRectOf c).top < 0.5 * (viewportRectOf c).height) →
      finalScrollTop c = rawOf c) := by
  constructor
  · intro h1 h2
    simp [finalScrollTop, snapScrollTop, hsnap, h1, h2]
  · intro h
    simp [finalScrollTop, snapScrollTop, hsnap, h]

/-- Witness for C4: with snapThreshold 50 in an 800px viewport and a
fully visible element at top 100, a raw offset of 10 resolves to 0 while
a raw offset of 1000 is left unchanged. -/
theorem C4_snap_rule_witness :
    rawOf ⟨⟨0, 100, 100, 50⟩, true, ⟨0, 0, 0, 0⟩, 600, 800, 10, some 50, 0,
        false, none, [], []⟩ = 10
    ∧ finalScrollTop ⟨⟨0, 100, 100, 50⟩, true, ⟨0, 0, 0, 0⟩, 600, 800, 10,
        some 50, 0, false, none, [], []⟩ = 0
    ∧ rawOf ⟨⟨0, 100, 100, 50⟩, true, ⟨0, 0, 0, 0⟩, 600, 800, 1000, some 50, 0,
        false, none, [], []⟩ = 1000
    ∧ finalScrollTop ⟨⟨0, 100, 100, 50⟩, true, ⟨0, 0, 0, 0⟩, 600, 800, 1000,
        some 50, 0, false, none, [], []⟩ = 1000 := by
  have hr10 : rawOf ⟨⟨0, 100, 100, 50⟩, true, ⟨0, 0, 0, 0⟩, 600, 800, 10,
      some 50, 0, false, none, [], []⟩ = 10 := by
    norm_num [rawOf, rawScrollTop, elementRectOf, viewportRectOf,
      subtractObstructions, selectObstructions, getViewportRect, capHeight,
      addPadding, Rect.bottom]
  have hr1000 : rawOf ⟨⟨0, 100, 100, 50⟩, true, ⟨0, 0, 0, 0⟩, 600, 800, 1000,
      some 50, 0, false, none, [], []⟩ = 1000 := by
    norm_num [rawOf, rawScrollTop, elementRectOf, viewportRectOf,
      subtractObstructions, selectObstructions, getViewportRect, capHeight,
      addPadding, Rect.bottom]
  refine ⟨hr10, ?_, hr1000, ?_⟩
  · exact (C4_snap_rule _ 50 rfl).1
      (by rw [hr10]; norm_num)
      (by norm_num [elementRectOf, viewportRectOf, subtractObstructions,
        selectObstructions, getViewportRect, capHeight, addPadding])
  · exact ((C4_snap_rule _ 50 rfl).2 (by rw [hr1000]; norm_num)).trans hr1000

/-- C5 (amended): obstruction antitonicity: with snapping disabled,
adding one visible top obstruction (all other inputs held equal) never
INCREASES the computed target scroll offset compared to the same
computation without that obstruction.  (The original claim stated it
never decreases; see the counterexample.) -/
theorem C5_top_obstruction_never_increases (c : RevealConfig)
    (o : Obstruction) (hsnap : c.snap = none) (hvis : o.visible = true) :
    finalScrollTop { c with topObstructions := c.topObstructions ++ [o] }
      ≤ finalScrollTop c := by
  have hfin : ∀ c2 : RevealConfig, c2.snap = none →
      finalScrollTop c2 = rawOf c2 := by
    intro c2 h2
    simp [finalScrollTop, snapScrollTop, h2]
  rw [hfin { c with topObstructions := c.topObstructions ++ [o] } hsnap,
    hfin c hsnap]
  have hsel : selectObstructions (c.topObstructions ++ [o])
      = selectObstructions c.topObstructions ++ [o.rect] := by
    rw [selectObstructions_append, hvis]
    simp
  unfold rawOf
  apply rawScrollTop_antitone
  · simp only [viewportRectOf, subtractObstructions, hsel,
      List.foldl_append, List.foldl_cons, List.foldl_nil,
      foldl_subtractBottom_top]
    exact subtractTopObstruction_top _ _
  · simp only [viewportRectOf, subtractObstructions, hsel,
      List.foldl_append, List.foldl_cons, List.foldl_nil]
    exact foldl_subtractBottom_bottom_congr _ _ _
      (subtractTopObstruction_bottom _ _).symm

/-- Witness for C5: adding a visible 650px-tall top obstruction to a
concrete snapping-free configuration does not increase the computed
offset. -/
theorem C5_top_obstruction_never_increases_witness :
    finalScrollTop ⟨⟨0, 1000, 100, 200⟩, true, ⟨0, 0, 0, 0⟩, 600, 800, 0,
        none, 0, false, none, [] ++ [⟨⟨0, 0, 600, 650⟩, true⟩], []⟩
      ≤ finalScrollTop ⟨⟨0, 1000, 100, 200⟩, true, ⟨0, 0, 0, 0⟩, 600, 800, 0,
        none, 0, false, none, [], []⟩ :=
  C5_top_obstruction_never_increases
    ⟨⟨0, 1000, 100, 200⟩, true, ⟨0, 0, 0, 0⟩, 600, 800, 0, none, 0, false,
      none, [], []⟩
    ⟨⟨0, 0, 600, 650⟩, true⟩ rfl rfl

/-- Counterexample to C5 as stated: for an 800px root viewport at scroll
offset 0 and an element at top 1000 of height 200, the computed offset
is 400 without obstructions; adding one visible top obstruction reaching
down to 650px makes it 350 — the offset DECREASED. -/
theorem C5_monotonicity_counterexample :
    finalScrollTop ⟨⟨0, 1000, 100, 200⟩, true, ⟨0, 0, 0, 0⟩, 600, 800, 0,
        none, 0, false, none, [] ++ [⟨⟨0, 0, 600, 650⟩, true⟩], []⟩ = 350
    ∧ finalScrollTop ⟨⟨0, 1000, 100, 200⟩, true, ⟨0, 0, 0, 0⟩, 600, 800, 0,
        none, 0, false, none, [], []⟩ = 400
    ∧ (350 : ℚ) < 400 := by
  refine ⟨?_, ?_, by norm_num⟩ <;>
    norm_num [finalScrollTop, snapScrollTop, rawOf, rawScrollTop,
      elementRectOf, viewportRectOf, subtractObstructions,
      selectObstructions, subtractTopObstruction, subtractBottomObstruction,
      getViewportRect, capHeight, addPadding, Rect.bottom]

/-- C6 (amended): reveal idempotence: for every element whose padded
rectangle (of nonnegative height) already lies fully inside the
obstruction-reduced viewport — top not above the viewport top, bottom
not below the viewport bottom, not taller than the viewport — with
align-top not requested and the snap rule leaving the current offset
unchanged, start computes a new offset equal to the current offset and
performs no scroll call at all.  (The original claim omitted the snap
proviso; see the counterexample.) -/
theorem C6_reveal_idempotent (c : RevealConfig)
    (halign : c.top = false)
    (hpos : 0 ≤ (elementRectOf c).height)
    (htop : (viewportRectOf c).top ≤ (elementRectOf c).top)
    (hbot : (elementRectOf c).bottom ≤ (viewportRectOf c).bottom)
    (hht : (elementRectOf c).height ≤ (viewportRectOf c).height)
    (hsnap : snapScrollTop c.snap (elementRectOf c) (viewportRectOf c)
        c.scrollTop = c.scrollTop) :
    finalScrollTop c = c.scrollTop ∧ start c = .ok none := by
  have hraw : rawOf c = c.scrollTop := by
    unfold rawOf rawScrollTop
    rw [halign]
    simp only [Bool.false_eq_true, false_or]
    rw [if_neg (not_lt.mpr hht), if_neg (not_lt.mpr htop),
      if_neg (not_lt.mpr hbot)]
  have hfin : finalScrollTop c = c.scrollTop := by
    unfold finalScrollTop
    rw [hraw]
    exact hsnap
  have hvh : ¬(viewportRectOf c).height < 0 := by
    have := le_trans hpos hht
    linarith
  exact ⟨hfin, by simp [start, hvh, hfin]⟩

/-- Witness for C6: a fully visible element at top 100 in an 800px
viewport with snapping disabled and current offset 10 leads to no
scroll call. -/
theorem C6_reveal_idempotent_witness :
    finalScrollTop ⟨⟨0, 100, 100, 50⟩, true, ⟨0, 0, 0, 0⟩, 600, 800, 10,
        none, 0, false, none, [], []⟩ = 10
    ∧ start ⟨⟨0, 100, 100, 50⟩, true, ⟨0, 0, 0, 0⟩, 600, 800, 10, none, 0,
        false, none, [], []⟩ = .ok none :=
  C6_reveal_idempotent
    ⟨⟨0, 100, 100, 50⟩, true, ⟨0, 0, 0, 0⟩, 600, 800, 10, none, 0, false,
      none, [], []⟩
    rfl
    (by norm_num [elementRectOf, capHeight, addPadding])
    (by norm_num [elementRectOf, viewportRectOf, subtractObstructions,
      selectObstructions, getViewportRect, capHeight, addPadding])
    (by norm_num [elementRectOf, viewportRectOf, subtractObstructions,
      selectObstructions, getViewportRect, capHeight, addPadding, Rect.bottom])
    (by norm_num [elementRectOf, viewportRectOf, subtractObstructions,
      selectObstructions, getViewportRect, capHeight, addPadding])
    (by norm_num [snapScrollTop])

/-- Counterexample to C6 as stated: an element at top 100 of height 50
lies fully inside the 800px viewport and align-top is not requested, yet
with snapThreshold 50 and current offset 10 the snap rule rewrites the
offset to 0 and start performs a scroll call. -/
theorem C6_idempotence_counterexample :
    RevealConfig.top ⟨⟨0, 100, 100, 50⟩, true, ⟨0, 0, 0, 0⟩, 600, 800, 10,
        some 50, 0, false, none, [], []⟩ = false
    ∧ (viewportRectOf ⟨⟨0, 100, 100, 50⟩, true, ⟨0, 0, 0, 0⟩, 600, 800, 10,
        some 50, 0, false, none, [], []⟩).top
      ≤ (elementRectOf ⟨⟨0, 100, 100, 50⟩, true, ⟨0, 0, 0, 0⟩, 600, 800, 10,
        some 50, 0, false, none, [], []⟩).top
    ∧ (elementRectOf ⟨⟨0, 100, 100, 50⟩, true, ⟨0, 0, 0, 0⟩, 600, 800, 10,
        some 50, 0, false, none, [], []⟩).bottom
      ≤ (viewportRectOf ⟨⟨0, 100, 100, 50⟩, true, ⟨0, 0, 0, 0⟩, 600, 800, 10,
        some 50, 0, false, none, [], []⟩).bottom
    ∧ (elementRectOf ⟨⟨0, 100, 100, 50⟩, true, ⟨0, 0, 0, 0⟩, 600, 800, 10,
        some 50, 0, false, none, [], []⟩).height
      ≤ (viewportRectOf ⟨⟨0, 100, 100, 50⟩, true, ⟨0, 0, 0, 0⟩, 600, 800, 10,
        some 50, 0, false, none, [], []⟩).height
    ∧ start ⟨⟨0, 100, 100, 50⟩, true, ⟨0, 0, 0, 0⟩, 600, 800, 10, some 50, 0,
        false, none, [], []⟩ = .ok (some 0) := by
  refine ⟨rfl, ?_, ?_, ?_, ?_⟩ <;>
    norm_num [start, finalScrollTop, snapScrollTop, rawOf, rawScrollTop,
      elementRectOf, viewportRectOf, subtractObstructions,
      selectObstructions, getViewportRect, capHeight, addPadding, Rect.bottom]

end Unpoly
